import Mathlib

/-!
Verification of the instant-replay recorder core
(`src/components/VideoRecorder.vue`, second revision — the one with A/B loop support).

Shallow embedding of the capture/replay engine: the reactive refs of the Vue
component become fields of `EngineState`; each handler (`toggleMode`,
`startPlayback`, `playNextFrame`, `toggleABPoints`, `togglePause`,
`handleProgressClick`, `adjustSpeed`, `cycleSpeed`, the `captureFrame`
callback) becomes a state-transition function, translated line by line from
the source.  JS numbers holding frame indices are modelled as `Int` (they are
only ever integers here), speed multipliers / fractions / the frame delay as
`ℚ`.  DOM availability checks (`videoCanvas`, `canvasContext`, `liveVideo`)
are environment preconditions assumed satisfied after mounting; they guard
no claim-relevant behaviour.  A tick that reads `playbackFrames[i]` with `i`
out of range obtains `undefined` and `putImageData` then throws: this is the
`TickOutcome.crashed` outcome (state mutations made before the throw are
kept, those after it are not, exactly as in JS).
-/

/-- Frames (`ImageData`) are opaque; we tag them with a number. -/
abbrev Frame := Nat

/-- JS operations  `Math.max(16, ...)`, `Math.floor`, `%` act on JS numbers; the engine
only ever produces integral indices, so indices are `Int`.  A JS array read
`a[i]` yields `undefined` for `i < 0` or `i ≥ a.length`. -/
def jsGet (l : List Frame) (i : Int) : Option Frame :=
  if i < 0 then none else l[i.toNat]?

/-- JS truthiness of a `number | null` value: `null` and `0` are falsy.
The source tests `!abPointA.value` / `!abPointB.value` with exactly this
semantics (`NaN` never arises for these fields). -/
def jsFalsy : Option Int → Bool
  | none => true
  | some n => n == 0

/-- Source constant `const FRAME_RATE = 60`. -/
def FRAME_RATE : ℚ := 60

/-- Source constant `const bufferSize = ref(5 * FRAME_RATE)`. -/
def bufferSize : Nat := 5 * 60

/-- Source constant `const speeds = [0.1, 0.25, 0.5, 1, 2]`. -/
def speeds : List ℚ := [1/10, 1/4, 1/2, 1, 2]

/-- The component's reactive refs that the engine logic reads or writes. -/
structure EngineState where
  recording : Bool
  playing : Bool
  paused : Bool
  playbackSpeed : ℚ
  abPointA : Option Int
  abPointB : Option Int
  abPointMode : Bool
  frameBuffer : List Frame
  currentPlaybackIndex : Int
  playbackFrames : List Frame
  progress : ℚ
  /-- whether a `setTimeout(playNextFrame, delay)` is outstanding
  (`playbackTimeoutId.value !== null` and not yet fired). -/
  timerPending : Bool
  statusText : String
deriving DecidableEq

/-- Initial values of the refs. -/
def initState : EngineState :=
  { recording := true
    playing := false
    paused := false
    playbackSpeed := 1/4
    abPointA := none
    abPointB := none
    abPointMode := false
    frameBuffer := []
    currentPlaybackIndex := 0
    playbackFrames := []
    progress := -1
    timerPending := false
    statusText := "Record" }

/-- The buffer update inside `captureFrame`:
`frameBuffer.value.push(frameData); if (length > bufferSize) shift()`.
The capacity is a parameter (the component fixes it to `bufferSize`). -/
def pushFrame (cap : Nat) (buf : List Frame) (f : Frame) : List Frame :=
  let b := buf ++ [f]
  if b.length > cap then b.tail else b

/-- One firing of the `captureFrame` `requestAnimationFrame` callback with a
fresh frame available.  Only the `recording && !playing` branch mutates
engine state (canvas drawing is display-side). -/
def captureFrame (s : EngineState) (frameData : Frame) : EngineState :=
  if s.recording && !s.playing then
    { s with frameBuffer := pushFrame bufferSize s.frameBuffer frameData
             statusText := "录制中" }
  else s

/-- The A/B-loop index adjustment in `playNextFrame`: two sequential `if`s,
`if (idx >= b) idx = a` then `if (idx < a) idx = a`. -/
def loopAdjust (a b i : Int) : Int :=
  let i1 := if i ≥ b then a else i
  if i1 < a then a else i1

/-- The default wrap in `playNextFrame`:
`else if (idx >= playbackFrames.length) idx = 0`. -/
def wrapAdjust (len : Nat) (i : Int) : Int :=
  if i ≥ (len : Int) then 0 else i

/-- The index `playNextFrame` settles on before reading the frame:
`if (abPointMode && abPointA !== null && abPointB !== null) {...} else if ...`. -/
def adjustIndex (s : EngineState) : Int :=
  if s.abPointMode && s.abPointA.isSome && s.abPointB.isSome then
    loopAdjust (s.abPointA.getD 0) (s.abPointB.getD 0) s.currentPlaybackIndex
  else
    wrapAdjust s.playbackFrames.length s.currentPlaybackIndex

/-- What one invocation of `playNextFrame` did. -/
inductive TickOutcome where
  /-- an early-`return` guard fired: nothing happened, nothing rescheduled -/
  | skipped
  /-- this frame went to `putImageData`, and a new timeout was armed -/
  | delivered (f : Frame)
  /-- the frame read was `undefined` and `putImageData` threw -/
  | crashed
deriving DecidableEq

/-- One invocation of `playNextFrame` (lines 575–601): guard, index
adjustment, progress report, frame delivery, post-increment, reschedule.
On an out-of-range read the `putImageData` throw aborts the function after
the index/progress writes and before the increment / `setTimeout`. -/
def playNextFrame (s : EngineState) : EngineState × TickOutcome :=
  if !s.playing || s.paused then (s, TickOutcome.skipped)
  else
    match jsGet s.playbackFrames (adjustIndex s) with
    | none =>
        ({ s with currentPlaybackIndex := adjustIndex s
                  progress := (adjustIndex s : ℚ) / (s.playbackFrames.length : ℚ) },
         TickOutcome.crashed)
    | some f =>
        ({ s with currentPlaybackIndex := adjustIndex s + 1
                  progress := (adjustIndex s : ℚ) / (s.playbackFrames.length : ℚ)
                  timerPending := true },
         TickOutcome.delivered f)

/-- Handler `startPlayback` (lines 542–549).  A throw inside `playNextFrame` would
propagate, skipping the `statusText` assignment. -/
def startPlayback (s : EngineState) : EngineState × TickOutcome :=
  if s.frameBuffer.length = 0 then (s, TickOutcome.skipped)
  else
    let s1 : EngineState :=
      { s with playbackFrames := s.frameBuffer, currentPlaybackIndex := 0 }
    match playNextFrame s1 with
    | (t, TickOutcome.crashed) => (t, TickOutcome.crashed)
    | (t, o) => ({ t with statusText := "回放中" }, o)

/-- Handler `toggleMode` (lines 522–539). -/
def toggleMode (s : EngineState) : EngineState × TickOutcome :=
  let s1 : EngineState := { s with recording := !s.recording }
  let s2 : EngineState := { s1 with playing := !s1.recording }
  let s3 : EngineState := { s2 with paused := false }
  let s4 : EngineState := if s3.recording then { s3 with progress := -1 } else s3
  if s4.playing then startPlayback s4
  else ({ s4 with timerPending := false }, TickOutcome.skipped)

/-- Handler `toggleABPoints` (lines 552–573).  Note the JS-truthiness tests. -/
def toggleABPoints (s : EngineState) : EngineState :=
  if jsFalsy s.abPointA then
    { s with abPointA := some s.currentPlaybackIndex, statusText := "设置A点" }
  else if jsFalsy s.abPointB then
    let b : Int :=
      if s.abPointA.getD 0 > s.currentPlaybackIndex
      then (s.playbackFrames.length : Int) - 1
      else s.currentPlaybackIndex
    { s with abPointB := some b, abPointMode := true, statusText := "AB循环中" }
  else
    { s with abPointA := none, abPointB := none, abPointMode := false
             statusText := "Recalling" }

/-- Handler `togglePause` (lines 604–609). -/
def togglePause (s : EngineState) : EngineState × TickOutcome :=
  let s1 : EngineState := { s with paused := !s.paused }
  if !s1.paused && s1.playing then playNextFrame s1
  else (s1, TickOutcome.skipped)

/-- Handler `handleProgressClick` (lines 612–627); `clickPosition` stands for
`event.clientX / window.innerWidth`.  The canvas-presence guard is an
environment precondition. -/
def handleProgressClick (s : EngineState) (clickPosition : ℚ) :
    EngineState × TickOutcome :=
  if !s.playing then (s, TickOutcome.skipped)
  else
    let targetIndex : Int := ⌊clickPosition * (s.playbackFrames.length : ℚ)⌋
    let s1 : EngineState :=
      { s with currentPlaybackIndex := targetIndex
               progress := (targetIndex : ℚ) / (s.playbackFrames.length : ℚ) }
    if s1.playing && !s1.paused then
      playNextFrame { s1 with timerPending := false }
    else (s1, TickOutcome.skipped)

/-- Handler `adjustSpeed` (lines 629–637). -/
def adjustSpeed (s : EngineState) (speedFactor : ℚ) : EngineState × TickOutcome :=
  let s1 : EngineState := { s with playbackSpeed := speedFactor }
  if s1.playing && !s1.paused then
    playNextFrame { s1 with timerPending := false }
  else (s1, TickOutcome.skipped)

/-- Handler `cycleSpeed` (lines 427–432); `Array.indexOf` yields `-1` when the
element is missing. -/
def cycleSpeed (s : EngineState) : EngineState × TickOutcome :=
  let currentIndex : Int :=
    if s.playbackSpeed ∈ speeds then (speeds.indexOf s.playbackSpeed : Int)
    else -1
  let nextIndex : Nat := ((currentIndex + 1) % (speeds.length : Int)).toNat
  let sp : ℚ := speeds.getD nextIndex 0
  adjustSpeed { s with playbackSpeed := sp } sp

/-- The inter-frame delay of `playNextFrame` line 598:
`Math.max(16, 1000 / (FRAME_RATE * playbackSpeed))`. -/
def frameDelay (speedMultiplier : ℚ) : ℚ :=
  max 16 (1000 / (FRAME_RATE * speedMultiplier))

/-- The discrete events that drive the engine: the five operator commands,
the replay timer firing and the capture callback firing. -/
inductive Command where
  | toggleMode
  | togglePause
  | cycleSpeed
  | seekToFraction (f : ℚ)
  | toggleLoopPoint
  | timerFire
  | captureReady (f : Frame)
deriving DecidableEq

/-- Event dispatch.  `timerFire` consumes the outstanding timeout before the
callback body runs. -/
def execCommand (s : EngineState) : Command → EngineState × TickOutcome
  | Command.toggleMode => toggleMode s
  | Command.togglePause => togglePause s
  | Command.cycleSpeed => cycleSpeed s
  | Command.seekToFraction f => handleProgressClick s f
  | Command.toggleLoopPoint => (toggleABPoints s, TickOutcome.skipped)
  | Command.timerFire =>
      if s.timerPending then playNextFrame { s with timerPending := false }
      else (s, TickOutcome.skipped)
  | Command.captureReady f => (captureFrame s f, TickOutcome.skipped)

/-- Run a sequence of events, keeping the final state. -/
def runState (s : EngineState) (cs : List Command) : EngineState :=
  cs.foldl (fun t c => (execCommand t c).1) s

/-- Iterated replay ticks. -/
def playSteps (s : EngineState) : Nat → EngineState
  | 0 => s
  | k + 1 => (playNextFrame (playSteps s k)).1

/-- A reachable replay state in which the first `toggleABPoints` press
happened while the cursor index was `0`, so point A was recorded as `0`;
the cursor has since moved to index `5`. -/
def c4State0 : EngineState :=
  { initState with
    recording := false, playing := true, paused := true
    frameBuffer := [10, 11, 12, 13, 14, 15]
    playbackFrames := [10, 11, 12, 13, 14, 15]
    currentPlaybackIndex := 0, statusText := "回放中" }

def c4State1 : EngineState :=
  { toggleABPoints c4State0 with currentPlaybackIndex := 5 }

/-- Commands reproducing a crash: capture one frame, enter replay (the
immediate tick delivers frame 0 and advances the cursor to 1 = length),
pause, press the A/B button twice (recording `a = 1`, then `b = 1` since
`a > index` fails), and unpause. -/
def c6Trace : List Command :=
  [Command.captureReady 7, Command.toggleMode, Command.togglePause,
   Command.toggleLoopPoint, Command.toggleLoopPoint]

/-- A replay state in which point A was recorded at index 0 and the cursor
has moved on to index 2. -/
def c8CState : EngineState :=
  { initState with
    recording := false, playing := true
    frameBuffer := [10, 11, 12], playbackFrames := [10, 11, 12]
    abPointA := some 0, currentPlaybackIndex := 2, statusText := "设置A点" }

/-- A replay state with A recorded at the nonzero index 2, cursor at 4. -/
def c8WitState : EngineState :=
  { initState with
    recording := false, playing := true
    frameBuffer := [10, 11, 12, 13, 14, 15]
    playbackFrames := [10, 11, 12, 13, 14, 15]
    abPointA := some 2, currentPlaybackIndex := 4, statusText := "设置A点" }

/-- A reachable replay-session state with an active A/B loop. -/
def c3State : EngineState :=
  { initState with
    recording := false, playing := true, paused := false
    frameBuffer := [2, 3, 4, 5, 6], playbackFrames := [2, 3, 4, 5, 6]
    currentPlaybackIndex := 2, abPointA := some 1, abPointB := some 3
    abPointMode := true, progress := 0, timerPending := true
    statusText := "AB循环中" }

/-- A fresh recording state with two captured frames. -/
def c3EnterState : EngineState := { initState with frameBuffer := [7, 8] }

/-- A fresh recording state with three captured frames. -/
def c9State : EngineState := { initState with frameBuffer := [4, 5, 6] }

/-- A paused replay state over a 5-frame sequence. -/
def c5State : EngineState :=
  { initState with
    recording := false, playing := true, paused := true
    frameBuffer := [0, 1, 2, 3, 4], playbackFrames := [0, 1, 2, 3, 4]
    statusText := "回放中", progress := 0 }

/-- A replay state with the active loop `a = 1`, `b = 3` over the 5-frame
sequence `[2,3,4,5,6]` (the spec's scenario), cursor at `a`. -/
def c2State : EngineState :=
  { initState with
    recording := false, playing := true, paused := false
    frameBuffer := [2, 3, 4, 5, 6], playbackFrames := [2, 3, 4, 5, 6]
    currentPlaybackIndex := 1, abPointA := some 1, abPointB := some 3
    abPointMode := true, progress := 0, timerPending := true
    statusText := "AB循环中" }

/-! ## Helper lemmas -/

lemma jsGet_eq_some (l : List Frame) (i : Int)
    (h0 : 0 ≤ i) (h1 : i < (l.length : Int)) : ∃ fr, jsGet l i = some fr := by
  unfold jsGet
  rw [if_neg (by omega)]
  have hlt : i.toNat < l.length := by omega
  exact ⟨l[i.toNat], List.getElem?_eq_getElem hlt⟩

lemma jsGet_eq_getD (l : List Frame) (i : Int)
    (h0 : 0 ≤ i) (h1 : i < (l.length : Int)) :
    jsGet l i = some (l.getD i.toNat 0) := by
  unfold jsGet
  rw [if_neg (by omega)]
  have hlt : i.toNat < l.length := by omega
  rw [List.getElem?_eq_getElem hlt, List.getD_eq_getElem l 0 hlt]

lemma playNextFrame_run (t : EngineState)
    (hpl : t.playing = true) (hpa : t.paused = false)
    (h0 : 0 ≤ adjustIndex t) (h1 : adjustIndex t < (t.playbackFrames.length : Int)) :
    playNextFrame t =
      ({ t with currentPlaybackIndex := adjustIndex t + 1
                progress := (adjustIndex t : ℚ) / (t.playbackFrames.length : ℚ)
                timerPending := true },
       TickOutcome.delivered (t.playbackFrames.getD (adjustIndex t).toNat 0)) := by
  have hfr := jsGet_eq_getD t.playbackFrames (adjustIndex t) h0 h1
  unfold playNextFrame
  rw [hpl, hpa]
  simp only [Bool.not_true, Bool.or_false, if_false, hfr]
  rfl

lemma playNextFrame_preserves (t : EngineState) :
    (playNextFrame t).1.playing = t.playing
    ∧ (playNextFrame t).1.paused = t.paused
    ∧ (playNextFrame t).1.abPointA = t.abPointA
    ∧ (playNextFrame t).1.abPointB = t.abPointB
    ∧ (playNextFrame t).1.abPointMode = t.abPointMode
    ∧ (playNextFrame t).1.playbackFrames = t.playbackFrames
    ∧ (playNextFrame t).1.frameBuffer = t.frameBuffer
    ∧ (playNextFrame t).1.recording = t.recording := by
  unfold playNextFrame
  split
  · exact ⟨rfl, rfl, rfl, rfl, rfl, rfl, rfl, rfl⟩
  · cases h : jsGet t.playbackFrames (adjustIndex t) <;> simp [h]

lemma captureFrame_preserves (t : EngineState) (f : Frame) :
    (captureFrame t f).playbackFrames = t.playbackFrames
    ∧ (captureFrame t f).currentPlaybackIndex = t.currentPlaybackIndex := by
  unfold captureFrame
  split <;> exact ⟨rfl, rfl⟩

lemma mod_succ_eq (d k : Nat) :
    (k + 1) % d = if k % d + 1 = d then 0 else k % d + 1 := by
  by_cases hd : d = 0
  · subst hd
    simp [Nat.mod_zero]
  · have hdpos : 0 < d := Nat.pos_of_ne_zero hd
    have hr : k % d < d := Nat.mod_lt k hdpos
    rw [Nat.add_mod k 1 d]
    by_cases hc : k % d + 1 = d
    · rw [if_pos hc]
      by_cases h1 : d = 1
      · subst h1; omega
      · have : 1 % d = 1 := Nat.mod_eq_of_lt (by omega)
        rw [this, hc, Nat.mod_self]
    · rw [if_neg hc]
      have h1 : 1 % d = 1 := by
        by_cases hone : d = 1
        · omega
        · exact Nat.mod_eq_of_lt (by omega)
      rw [h1]
      exact Nat.mod_eq_of_lt (by omega)

lemma loopAdjust_eval (a b i : Int) :
    loopAdjust a b i = if i ≥ b then a else if i < a then a else i := by
  unfold loopAdjust
  by_cases h1 : i ≥ b
  · simp [h1]
  · simp [h1]

lemma foldl_pushFrame (cap : Nat) :
    ∀ (frames buf : List Frame), buf.length ≤ cap →
      frames.foldl (pushFrame cap) buf
        = (buf ++ frames).drop (buf.length + frames.length - cap) := by
  intro frames
  induction frames with
  | nil =>
    intro buf hb
    simp [Nat.sub_eq_zero_of_le hb]
  | cons f fs ih =>
    intro buf hb
    rw [List.foldl_cons]
    by_cases hlen : buf.length + 1 > cap
    · have hbc : buf.length = cap := by omega
      have hpush : pushFrame cap buf f = (buf ++ [f]).tail := by
        unfold pushFrame
        rw [if_pos (by simp; omega)]
      have htl : ((buf ++ [f]).tail).length ≤ cap := by
        rw [List.length_tail]
        simp
        omega
      rw [hpush, ih _ htl]
      have h1 : (buf ++ [f]).tail ++ fs = ((buf ++ [f]) ++ fs).drop 1 := by
        rw [List.drop_append_of_le_length (by simp), List.drop_one]
      rw [h1, List.drop_drop]
      rw [List.append_assoc, List.singleton_append]
      congr 1
      rw [List.length_tail]
      simp
      omega
    · have hpush : pushFrame cap buf f = buf ++ [f] := by
        unfold pushFrame
        rw [if_neg (by simp; omega)]
      rw [hpush, ih _ (by simp; omega)]
      rw [List.append_assoc, List.singleton_append]
      congr 1
      simp
      omega

/-! ## Claims -/

/-- C7 (confirmed).  For every sequence of pushes into the buffer with
capacity `cap`, starting empty, the final contents are the most recently
pushed frames in arrival order and the length is `min N cap`; moreover each
individual push keeps `length ≤ cap`, evicting exactly the single oldest
frame when the push would exceed the capacity and evicting nothing
otherwise. -/
theorem c7_bounded_buffer (cap : Nat) (frames : List Frame) :
    frames.foldl (pushFrame cap) [] = frames.drop (frames.length - cap)
    ∧ (frames.foldl (pushFrame cap) []).length = min frames.length cap
    ∧ (∀ buf f, buf.length ≤ cap → (pushFrame cap buf f).length ≤ cap)
    ∧ (∀ buf f, cap ≤ buf.length → pushFrame cap buf f = (buf ++ [f]).tail)
    ∧ (∀ buf f, buf.length < cap → pushFrame cap buf f = buf ++ [f]) := by
  have hmain : frames.foldl (pushFrame cap) [] = frames.drop (frames.length - cap) := by
    have := foldl_pushFrame cap frames [] (by simp)
    simpa using this
  refine ⟨hmain, ?_, ?_, ?_, ?_⟩
  · rw [hmain, List.length_drop]
    omega
  · intro buf f hle
    simp only [pushFrame]
    split_ifs with h
    · rw [List.length_tail]
      simp
      omega
    · simp at h ⊢
      omega
  · intro buf f hge
    unfold pushFrame
    rw [if_pos (by simp; omega)]
  · intro buf f hlt
    unfold pushFrame
    rw [if_neg (by simp; omega)]

/-- C7 witness: the spec's scenario, capacity 5, pushes `[1,2,3,4,5,6]`. -/
theorem c7_bounded_buffer_witness :
    ([1, 2, 3, 4, 5, 6] : List Frame).foldl (pushFrame 5) [] = [2, 3, 4, 5, 6]
    ∧ (pushFrame 5 [1, 2, 3, 4, 5] 6).length ≤ 5
    ∧ pushFrame 5 [1, 2, 3, 4, 5] 6 = ([1, 2, 3, 4, 5] ++ [6]).tail
    ∧ pushFrame 5 [1, 2, 3] 9 = [1, 2, 3] ++ [9] := by
  refine ⟨?_, ?_, ?_, ?_⟩
  · rw [(c7_bounded_buffer 5 [1, 2, 3, 4, 5, 6]).1]; rfl
  · exact (c7_bounded_buffer 5 [1, 2, 3, 4, 5, 6]).2.2.1 [1, 2, 3, 4, 5] 6 (by decide)
  · exact (c7_bounded_buffer 5 [1, 2, 3, 4, 5, 6]).2.2.2.1 [1, 2, 3, 4, 5] 6 (by decide)
  · exact (c7_bounded_buffer 5 [1, 2, 3, 4, 5, 6]).2.2.2.2 [1, 2, 3] 9 (by decide)

/-- C10 (confirmed).  The delay `max(16, 1000 / (FRAME_RATE * m))` is
antitone in the speed multiplier and never drops below the 16 ms floor. -/
theorem c10_speed_delay_monotone (m1 m2 : ℚ) (h0 : 0 < m1) (h12 : m1 < m2) :
    frameDelay m2 ≤ frameDelay m1
    ∧ 16 ≤ frameDelay m1 ∧ 16 ≤ frameDelay m2 := by
  refine ⟨?_, le_max_left _ _, le_max_left _ _⟩
  have hm2 : 0 < m2 := h0.trans h12
  unfold frameDelay FRAME_RATE
  apply max_le_max le_rfl
  have hp1 : (0 : ℚ) < 60 * m1 := by positivity
  have hp2 : (0 : ℚ) < 60 * m2 := mul_pos (by norm_num) hm2
  rw [div_le_div_iff₀ hp2 hp1]
  nlinarith

/-- C10 witness at `m1 = 1 < m2 = 2`. -/
theorem c10_speed_delay_monotone_witness :
    frameDelay 2 ≤ frameDelay 1 ∧ 16 ≤ frameDelay 1 ∧ 16 ≤ frameDelay 2 :=
  c10_speed_delay_monotone 1 2 (by norm_num) (by norm_num)

/-- C1 counterexample.  From the initial state (empty buffer), `toggleMode`
does NOT leave the mode at Recording: the `recording` flag flips to `false`
and `playing` to `true` even though `startPlayback` refuses to start. -/
theorem c1_empty_toggle_flips_mode :
    (toggleMode initState).1.recording = false
    ∧ (toggleMode initState).1.playing = true := by
  decide

/-- C1 (corrected).  Toggling out of Recording with an empty buffer flips
the mode flags (`recording := false`, `playing := true`, `paused := false`)
but refuses to start a replay session: no snapshot is taken, the cursor,
the playback sequence and the buffer are untouched, nothing is delivered
and nothing crashes. -/
theorem c1_empty_buffer_refusal_amended (s : EngineState)
    (hr : s.recording = true) (hb : s.frameBuffer = []) :
    toggleMode s = ({ s with recording := false, playing := true, paused := false },
                    TickOutcome.skipped) := by
  unfold toggleMode startPlayback
  simp [hr, hb]

/-- C1 witness at the initial state. -/
theorem c1_empty_buffer_refusal_witness :
    toggleMode initState
      = ({ initState with recording := false, playing := true, paused := false },
         TickOutcome.skipped) :=
  c1_empty_buffer_refusal_amended initState rfl rfl

/-- C4 (code bug).  The first toggle at index 0 does record `a = 0` as
claimed, but because the source tests `!abPointA.value` (JS truthiness)
instead of `abPointA.value !== null`, the recorded `a = 0` is
indistinguishable from "no point A": the second toggle re-records A at the
current index instead of setting B and activating the loop.  The
three-phase cycle breaks exactly when the first call happens at index 0. -/
theorem c4_zero_index_loop_point_bug :
    (toggleABPoints c4State0).abPointA = some 0
    ∧ c4State1.abPointA = some 0
    ∧ c4State1.abPointB = none
    ∧ (toggleABPoints c4State1).abPointA = some 5
    ∧ (toggleABPoints c4State1).abPointB = none
    ∧ (toggleABPoints c4State1).abPointMode = false := by
  decide

/-- C6 (code bug).  The final `togglePause` command synchronously invokes
`playNextFrame`, which under the loop `a = b = 1` sets the index to 1 and
reads `playbackFrames[1]` of a 1-element sequence: the read yields
`undefined` and `putImageData` throws — a command does crash the engine. -/
theorem c6_command_crash_bug :
    (execCommand (runState initState c6Trace) Command.togglePause).2
      = TickOutcome.crashed := by
  decide

/-- C8 counterexample.  With point A set (to 0) and B unset, the second
`toggleABPoints` call does not set `b` and does not activate the loop — it
re-records A, because `!abPointA.value` is true for the recorded `0`. -/
theorem c8_zero_a_no_activation :
    (toggleABPoints c8CState).abPointMode = false
    ∧ (toggleABPoints c8CState).abPointB = none
    ∧ (toggleABPoints c8CState).abPointA = some 2 := by
  decide

/-- C8 (corrected).  When the recorded point A is a NONZERO index `a` and B
is unset, the second call behaves as claimed: `b := len - 1` if
`a > index`, otherwise `b := index`, and the loop becomes active. -/
theorem c8_second_call_amended (s : EngineState) (a : Int)
    (hA : s.abPointA = some a) (ha : a ≠ 0) (hB : s.abPointB = none) :
    toggleABPoints s
      = { s with
          abPointB := some (if a > s.currentPlaybackIndex
                            then (s.playbackFrames.length : Int) - 1
                            else s.currentPlaybackIndex)
          abPointMode := true, statusText := "AB循环中" } := by
  unfold toggleABPoints
  rw [hA, hB]
  simp [jsFalsy, ha]

/-- C8 witness at `a = 2`, `index = 4`. -/
theorem c8_second_call_witness :
    toggleABPoints c8WitState
      = { c8WitState with
          abPointB := some (if (2 : Int) > c8WitState.currentPlaybackIndex
                            then (c8WitState.playbackFrames.length : Int) - 1
                            else c8WitState.currentPlaybackIndex)
          abPointMode := true, statusText := "AB循环中" } :=
  c8_second_call_amended c8WitState 2 rfl (by decide) rfl


/-! Shared facts about `toggleMode` and `startPlayback`, used by the C3 and
C9 theorems. -/

lemma toggleMode_leave (s : EngineState) (hr : s.recording = false) :
    toggleMode s
      = ({ s with recording := true, playing := false, paused := false, progress := -1, timerPending := false }, TickOutcome.skipped) := by
  unfold toggleMode
  simp [hr]

lemma toggleMode_enter_eq (s : EngineState) (hr : s.recording = true) :
    toggleMode s
      = startPlayback { s with recording := false, playing := true, paused := false } := by
  unfold toggleMode
  simp [hr]

lemma startPlayback_preserves (s : EngineState) (hb : s.frameBuffer ≠ []) :
    (startPlayback s).1.playbackFrames = s.frameBuffer
    ∧ (startPlayback s).1.paused = s.paused
    ∧ (startPlayback s).1.abPointA = s.abPointA
    ∧ (startPlayback s).1.abPointB = s.abPointB
    ∧ (startPlayback s).1.abPointMode = s.abPointMode
    ∧ (startPlayback s).1.frameBuffer = s.frameBuffer := by
  unfold startPlayback
  rw [if_neg (by simpa using hb)]
  have hpres := playNextFrame_preserves
    { s with playbackFrames := s.frameBuffer, currentPlaybackIndex := (0 : Int) }
  rcases hpn : playNextFrame
    { s with playbackFrames := s.frameBuffer, currentPlaybackIndex := (0 : Int) } with ⟨t, o⟩
  rw [hpn] at hpres
  simp only at hpres
  cases o <;> simp only [hpn] <;>
    exact ⟨hpres.2.2.2.2.2.1, hpres.2.1, hpres.2.2.1, hpres.2.2.2.1,
           hpres.2.2.2.2.1, hpres.2.2.2.2.2.2.1⟩

lemma startPlayback_run (s : EngineState)
    (hpl : s.playing = true) (hpa : s.paused = false)
    (hb : s.frameBuffer ≠ []) (hm : s.abPointMode = false) :
    startPlayback s
      = ({ s with
            playbackFrames := s.frameBuffer, currentPlaybackIndex := 1
            progress := ((0 : Int) : ℚ) / (s.frameBuffer.length : ℚ)
            timerPending := true, statusText := "回放中" },
         TickOutcome.delivered s.frameBuffer.headI) := by
  have hlen : 0 < s.frameBuffer.length := List.length_pos.mpr hb
  unfold startPlayback
  rw [if_neg (by omega)]
  have hadj : adjustIndex
      { s with playbackFrames := s.frameBuffer, currentPlaybackIndex := (0 : Int) } = 0 := by
    simp [adjustIndex, hm, wrapAdjust]
  have hrun := playNextFrame_run
    { s with playbackFrames := s.frameBuffer, currentPlaybackIndex := (0 : Int) }
    hpl hpa (by rw [hadj]) (by rw [hadj]; simpa using hlen)
  rw [hadj] at hrun
  simp only [hrun]
  have hget : s.frameBuffer.getD ((0 : Int)).toNat 0 = s.frameBuffer.headI := by
    cases hfb : s.frameBuffer with
    | nil => exact absurd hfb hb
    | cons a l => rfl
  rw [hget]
  norm_num

/-- C3 counterexample.  Leaving Replaying by `toggleMode` does NOT clear the
A/B loop state: the loop points and the active flag survive the toggle. -/
theorem c3_toggle_keeps_loop_state :
    (toggleMode c3State).1.abPointMode = true
    ∧ (toggleMode c3State).1.abPointA = some 1
    ∧ (toggleMode c3State).1.abPointB = some 3 := by
  decide

/-- C3 (corrected).  Every mode toggle clears the paused flag.  Leaving
Replaying flips the flags back, resets progress, cancels the pending
playback timer and leaves the buffer (and everything else, including the
A/B loop state) untouched.  Entering Replaying with a nonempty buffer takes
a fresh snapshot as the playback sequence and — when no A/B loop is lying
around from an earlier session — restarts the cursor at index 0, delivering
frame 0 immediately and leaving the cursor at 1 with a timer armed.  The
A/B loop state is NOT reset by either transition. -/
theorem c3_toggle_reset_amended (s : EngineState) :
    (s.recording = false →
       toggleMode s
         = ({ s with recording := true, playing := false, paused := false, progress := -1, timerPending := false }, TickOutcome.skipped))
    ∧ (s.recording = true → s.frameBuffer ≠ [] →
        (toggleMode s).1.playbackFrames = s.frameBuffer
        ∧ (toggleMode s).1.paused = false
        ∧ (toggleMode s).1.abPointA = s.abPointA
        ∧ (toggleMode s).1.abPointB = s.abPointB
        ∧ (toggleMode s).1.abPointMode = s.abPointMode
        ∧ (toggleMode s).1.frameBuffer = s.frameBuffer
        ∧ (s.abPointMode = false →
            (toggleMode s).1.currentPlaybackIndex = 1
            ∧ (toggleMode s).2 = TickOutcome.delivered s.frameBuffer.headI
            ∧ (toggleMode s).1.timerPending = true)) := by
  constructor
  · exact toggleMode_leave s
  · intro hr hb
    rw [toggleMode_enter_eq s hr]
    have hpre := startPlayback_preserves
      { s with recording := false, playing := true, paused := false } hb
    refine ⟨hpre.1, hpre.2.1, hpre.2.2.1, hpre.2.2.2.1, hpre.2.2.2.2.1,
            hpre.2.2.2.2.2, ?_⟩
    intro hm
    have hrun := startPlayback_run
      { s with recording := false, playing := true, paused := false } rfl rfl hb hm
    rw [hrun]
    exact ⟨rfl, rfl, rfl⟩

/-- C3 witness: entering replay from `c3EnterState`, leaving replay from
`c3State`. -/
theorem c3_toggle_reset_witness :
    ((toggleMode c3EnterState).1.playbackFrames = [7, 8]
      ∧ (toggleMode c3EnterState).1.currentPlaybackIndex = 1
      ∧ (toggleMode c3EnterState).2 = TickOutcome.delivered 7)
    ∧ toggleMode c3State
        = ({ c3State with recording := true, playing := false, paused := false, progress := -1, timerPending := false }, TickOutcome.skipped) := by
  have he := (c3_toggle_reset_amended c3EnterState).2 rfl (by decide)
  exact ⟨⟨he.1, (he.2.2.2.2.2.2 rfl).1, (he.2.2.2.2.2.2 rfl).2.1⟩,
         (c3_toggle_reset_amended c3State).1 rfl⟩

/-- C9 (confirmed).  The playback sequence taken on entering Replaying is a
copy of the buffer (oldest-first, since `captureFrame` appends new frames
at the end), and no amount of further capture activity — in any state —
ever changes `playbackFrames`. -/
theorem c9_snapshot_independence (s : EngineState)
    (hr : s.recording = true) (hb : s.frameBuffer ≠ []) :
    (∀ fs : List Frame,
       (fs.foldl captureFrame (toggleMode s).1).playbackFrames = s.frameBuffer)
    ∧ ∀ (t : EngineState) (fs : List Frame),
        (fs.foldl captureFrame t).playbackFrames = t.playbackFrames := by
  have hgen : ∀ (fs : List Frame) (t : EngineState),
      (fs.foldl captureFrame t).playbackFrames = t.playbackFrames := by
    intro fs
    induction fs with
    | nil => intro t; rfl
    | cons f fs ih =>
      intro t
      rw [List.foldl_cons, ih]
      exact (captureFrame_preserves t f).1
  refine ⟨fun fs => ?_, fun t fs => hgen fs t⟩
  rw [hgen]
  rw [toggleMode_enter_eq s hr]
  exact (startPlayback_preserves
    { s with recording := false, playing := true, paused := false } hb).1

/-- C9 witness: snapshot `[4,5,6]` survives two further capture callbacks. -/
theorem c9_snapshot_independence_witness :
    (([9, 9] : List Frame).foldl captureFrame (toggleMode c9State).1).playbackFrames
      = [4, 5, 6]
    ∧ (([1, 2] : List Frame).foldl captureFrame initState).playbackFrames
        = initState.playbackFrames := by
  have h := c9_snapshot_independence c9State rfl (by decide)
  exact ⟨h.1 [9, 9], h.2 initState [1, 2]⟩

/-- C5 counterexample.  A scrub click at the far right edge
(`clickPosition = 1`) sets the cursor index to `floor(1 * 5) = 5`, which is
NOT clamped to the valid range `[0, 5)`: the code stores an out-of-range
cursor index. -/
theorem c5_seek_unclamped :
    (handleProgressClick c5State 1).1.currentPlaybackIndex = 5
    ∧ ¬((handleProgressClick c5State 1).1.currentPlaybackIndex
        < (c5State.playbackFrames.length : Int)) := by
  have hres : (handleProgressClick c5State 1).1.currentPlaybackIndex = 5 := by
    unfold handleProgressClick
    simp [c5State, initState]
  refine ⟨hres, ?_⟩
  rw [hres]
  simp [c5State, initState]

/-- C5 (corrected).  For `f ∈ [0,1]` on a playing session with no active
loop and a nonempty sequence, the seek stores `index = floor(f * len)`
UNCLAMPED — so `f = 1` yields `index = len`, outside `[0, len)` — but the
stored index always lies in `[0, len]`, the handler never attempts an
out-of-range frame read (the wrap inside the immediately invoked
`playNextFrame` resets `index ≥ len` to `0` before the read), and when the
session is paused the stored index is exactly `floor(f * len)`. -/
theorem c5_seek_range_amended (s : EngineState) (f : ℚ)
    (hpl : s.playing = true) (hm : s.abPointMode = false)
    (h0 : 0 ≤ f) (h1 : f ≤ 1) (hl : 0 < s.playbackFrames.length) :
    (handleProgressClick s f).2 ≠ TickOutcome.crashed
    ∧ 0 ≤ (handleProgressClick s f).1.currentPlaybackIndex
    ∧ (handleProgressClick s f).1.currentPlaybackIndex
        ≤ (s.playbackFrames.length : Int)
    ∧ (s.paused = true →
        (handleProgressClick s f).1.currentPlaybackIndex
          = ⌊f * (s.playbackFrames.length : ℚ)⌋) := by
  obtain ⟨rec, pl, pa, sp, aA, aB, aM, fb, idx, pf, pr, tp, st⟩ := s
  simp only at hpl hm hl
  subst hpl
  subst hm
  have hc0 : (0 : ℚ) ≤ (pf.length : ℚ) := by positivity
  have ht0 : 0 ≤ ⌊f * (pf.length : ℚ)⌋ := Int.floor_nonneg.mpr (mul_nonneg h0 hc0)
  have ht1 : ⌊f * (pf.length : ℚ)⌋ ≤ (pf.length : Int) := by
    have hle : f * (pf.length : ℚ) ≤ (pf.length : ℚ) := mul_le_of_le_one_left hc0 h1
    calc ⌊f * (pf.length : ℚ)⌋ ≤ ⌊((pf.length : ℕ) : ℚ)⌋ := Int.floor_mono hle
      _ = (pf.length : Int) := Int.floor_natCast _
  cases pa with
  | true =>
    have hres : handleProgressClick
        ⟨rec, true, true, sp, aA, aB, false, fb, idx, pf, pr, tp, st⟩ f
        = (⟨rec, true, true, sp, aA, aB, false, fb, ⌊f * (pf.length : ℚ)⌋, pf,
            (⌊f * (pf.length : ℚ)⌋ : ℚ) / (pf.length : ℚ), tp, st⟩,
           TickOutcome.skipped) := by
      unfold handleProgressClick
      simp
    rw [hres]
    exact ⟨by simp, ht0, ht1, fun _ => rfl⟩
  | false =>
    have hb0 : 0 ≤ wrapAdjust pf.length ⌊f * (pf.length : ℚ)⌋ := by
      unfold wrapAdjust
      split_ifs <;> omega
    have hb1 : wrapAdjust pf.length ⌊f * (pf.length : ℚ)⌋ < (pf.length : Int) := by
      unfold wrapAdjust
      split_ifs with h <;> omega
    have hadj : adjustIndex
        ⟨rec, true, false, sp, aA, aB, false, fb, ⌊f * (pf.length : ℚ)⌋, pf,
          (⌊f * (pf.length : ℚ)⌋ : ℚ) / (pf.length : ℚ), false, st⟩
        = wrapAdjust pf.length ⌊f * (pf.length : ℚ)⌋ := by
      simp [adjustIndex]
    have hres : handleProgressClick
        ⟨rec, true, false, sp, aA, aB, false, fb, idx, pf, pr, tp, st⟩ f
        = playNextFrame
            ⟨rec, true, false, sp, aA, aB, false, fb, ⌊f * (pf.length : ℚ)⌋, pf,
              (⌊f * (pf.length : ℚ)⌋ : ℚ) / (pf.length : ℚ), false, st⟩ := by
      unfold handleProgressClick
      simp
    have hrun := playNextFrame_run
      ⟨rec, true, false, sp, aA, aB, false, fb, ⌊f * (pf.length : ℚ)⌋, pf,
        (⌊f * (pf.length : ℚ)⌋ : ℚ) / (pf.length : ℚ), false, st⟩
      rfl rfl (by rw [hadj]; exact hb0) (by rw [hadj]; exact hb1)
    rw [hres, hrun]
    refine ⟨by simp, ?_, ?_, by simp⟩
    · simp only
      rw [hadj]
      omega
    · simp only
      rw [hadj]
      omega

/-- C5 witness at the paused 5-frame state with `f = 1/2`. -/
theorem c5_seek_range_witness :
    (handleProgressClick c5State (1/2)).2 ≠ TickOutcome.crashed
    ∧ 0 ≤ (handleProgressClick c5State (1/2)).1.currentPlaybackIndex
    ∧ (handleProgressClick c5State (1/2)).1.currentPlaybackIndex
        ≤ (c5State.playbackFrames.length : Int)
    ∧ (c5State.paused = true →
        (handleProgressClick c5State (1/2)).1.currentPlaybackIndex
          = ⌊(1/2 : ℚ) * (c5State.playbackFrames.length : ℚ)⌋) :=
  c5_seek_range_amended c5State (1/2) rfl rfl (by norm_num) (by norm_num) (by decide)

/-- C2 counterexample.  With loop `{1,3}` the delivered cursor indices are
`1, 2, 1, 2, …` — NOT `1, 2, 3, 1, 2, 3, …` as claimed: at the third tick
the adjusted index is 1 again (frame value 3), never 3 (frame value 5),
because `playNextFrame` resets `index ≥ b` to `a` BEFORE delivering. -/
theorem c2_loop_skips_b_frame :
    (playNextFrame c2State).2 = TickOutcome.delivered 3
    ∧ (playNextFrame (playSteps c2State 1)).2 = TickOutcome.delivered 4
    ∧ (playNextFrame (playSteps c2State 2)).2 = TickOutcome.delivered 3
    ∧ adjustIndex (playSteps c2State 2) = 1 := by
  decide

/-- C2 (corrected).  Once a loop `{a,b}` with `a < b < len` is active and
the cursor starts at `a`, every tick delivers the adjusted index
`a + (k mod (b - a))`: the delivered indices stay within `[a, b - 1]` —
always inside `[a, b]`, but cycling `a, a+1, …, b-1, a, …` with frame `b`
itself never delivered — and every tick succeeds (no crash). -/
theorem c2_loop_containment_amended (s : EngineState) (a b : Int)
    (hpl : s.playing = true) (hpa : s.paused = false) (hm : s.abPointMode = true)
    (hA : s.abPointA = some a) (hB : s.abPointB = some b)
    (ha0 : 0 ≤ a) (hab : a < b) (hblen : b < (s.playbackFrames.length : Int))
    (hidx : s.currentPlaybackIndex = a) :
    ∀ k : Nat,
      adjustIndex (playSteps s k) = a + ((k % (b - a).toNat : ℕ) : Int)
      ∧ a ≤ adjustIndex (playSteps s k)
      ∧ adjustIndex (playSteps s k) < b
      ∧ ∃ fr, (playNextFrame (playSteps s k)).2 = TickOutcome.delivered fr := by
  have hd : 0 < (b - a).toNat := by omega
  have hdc : ((b - a).toNat : Int) = b - a := Int.toNat_of_nonneg (by omega)
  have hinv : ∀ k : Nat,
      (playSteps s k).playing = true
      ∧ (playSteps s k).paused = false
      ∧ (playSteps s k).abPointMode = true
      ∧ (playSteps s k).abPointA = some a
      ∧ (playSteps s k).abPointB = some b
      ∧ (playSteps s k).playbackFrames = s.playbackFrames
      ∧ adjustIndex (playSteps s k) = a + ((k % (b - a).toNat : ℕ) : Int) := by
    intro k
    induction k with
    | zero =>
      refine ⟨hpl, hpa, hm, hA, hB, rfl, ?_⟩
      simp only [playSteps, adjustIndex, hm, hA, hB, hidx, Option.isSome_some,
        Bool.and_self, if_true, Option.getD_some, Nat.zero_mod, Nat.cast_zero,
        add_zero, Bool.true_and]
      unfold loopAdjust
      rw [if_neg (by omega), if_neg (by omega)]
    | succ k ih =>
      obtain ⟨ipl, ipa, im, iA, iB, ipf, iadj⟩ := ih
      have hrk : (k % (b - a).toNat : ℕ) < (b - a).toNat := Nat.mod_lt k hd
      have h0 : 0 ≤ adjustIndex (playSteps s k) := by rw [iadj]; omega
      have h1 : adjustIndex (playSteps s k)
          < ((playSteps s k).playbackFrames.length : Int) := by
        rw [iadj, ipf]
        omega
      have hrun := playNextFrame_run (playSteps s k) ipl ipa h0 h1
      have hstep : playSteps s (k + 1) = (playNextFrame (playSteps s k)).1 := rfl
      rw [hstep, hrun]
      refine ⟨ipl, ipa, im, iA, iB, ipf, ?_⟩
      simp only [adjustIndex, im, iA, iB, Option.isSome_some, Bool.and_self,
        if_true, Option.getD_some, Bool.true_and]
      have iadj2 : loopAdjust a b (playSteps s k).currentPlaybackIndex
          = a + ((k % (b - a).toNat : ℕ) : Int) := by
        have h2 := iadj
        simp only [adjustIndex, im, iA, iB, Option.isSome_some, Bool.and_self,
          if_true, Option.getD_some, Bool.true_and] at h2
        exact h2
      rw [iadj2]
      rw [loopAdjust_eval, mod_succ_eq]
      by_cases hc : (k % (b - a).toNat : ℕ) + 1 = (b - a).toNat
      · rw [if_pos hc,
          if_pos (show a + ((k % (b - a).toNat : ℕ) : Int) + 1 ≥ b by omega)]
        simp
      · rw [if_neg hc,
          if_neg (show ¬(a + ((k % (b - a).toNat : ℕ) : Int) + 1 ≥ b) by omega),
          if_neg (show ¬(a + ((k % (b - a).toNat : ℕ) : Int) + 1 < a) by omega)]
        push_cast
        ring
  intro k
  obtain ⟨ipl, ipa, im, iA, iB, ipf, iadj⟩ := hinv k
  have hrk : (k % (b - a).toNat : ℕ) < (b - a).toNat := Nat.mod_lt k hd
  have h0 : 0 ≤ adjustIndex (playSteps s k) := by rw [iadj]; omega
  have h1 : adjustIndex (playSteps s k)
      < ((playSteps s k).playbackFrames.length : Int) := by
    rw [iadj, ipf]
    omega
  have hrun := playNextFrame_run (playSteps s k) ipl ipa h0 h1
  refine ⟨iadj, by rw [iadj]; omega, by rw [iadj]; omega, ?_⟩
  rw [hrun]
  exact ⟨_, rfl⟩

/-- C2 witness: the scenario loop `{1,3}` on `[2,3,4,5,6]`, tick 5. -/
theorem c2_loop_containment_witness :
    adjustIndex (playSteps c2State 5) = 1 + ((5 % ((3 - 1 : Int)).toNat : ℕ) : Int)
    ∧ 1 ≤ adjustIndex (playSteps c2State 5)
    ∧ adjustIndex (playSteps c2State 5) < 3
    ∧ ∃ fr, (playNextFrame (playSteps c2State 5)).2 = TickOutcome.delivered fr :=
  c2_loop_containment_amended c2State 1 3 rfl rfl rfl rfl rfl (by decide)
    (by decide) (by decide) rfl 5
